import Mathlib

/-!
Shallow embedding of the HPROF binary heap-dump parser
(src/services/hprofParser.js, class HprofParser) together with the
model tables it builds.  The input buffer is a list of bytes
(natural numbers below 256); the JavaScript DataView reads become
partial big-endian composition functions, JavaScript exceptions become
an explicit error result, and the implicit `this.position` cursor is
threaded explicitly.  JavaScript number arithmetic that can exceed
2^53 (the 8-byte identifier composition and the long decode) is
modelled exactly, by rounding the mathematical result to the nearest
IEEE-754 binary64 value (53 significant bits, ties to even) -- both
operands of each such operation are themselves exactly representable.
-/

deriving instance DecidableEq for Except

/-- Errors thrown by the parser: DataView range errors plus the four
explicit `throw new Error(...)` sites of hprofParser.js. -/
inductive JsError where
  | rangeError
  | unsupportedFormat
  | unsupportedIdSize
  | unknownSubTag (t : Nat)
  | unknownType (t : Nat)
deriving DecidableEq

/-- Byte at index `i` of the buffer (DataView.getUint8; `none` models
the thrown RangeError). -/
def byteAt (d : List Nat) (i : Nat) : Option Nat := d[i]?

/-- Big-endian 16-bit read (DataView.getUint16). -/
def u16At (d : List Nat) (i : Nat) : Option Nat :=
  match d[i]?, d[i + 1]? with
  | some b0, some b1 => some (b0 * 256 + b1)
  | _, _ => none

/-- Big-endian 32-bit read (DataView.getUint32). -/
def u32At (d : List Nat) (i : Nat) : Option Nat :=
  match d[i]?, d[i + 1]?, d[i + 2]?, d[i + 3]? with
  | some b0, some b1, some b2, some b3 =>
      some (b0 * 16777216 + b1 * 65536 + b2 * 256 + b3)
  | _, _, _, _ => none

/-- Exact big-endian composition of 8 raw bytes into an unsigned
64-bit integer.  This is the mathematical value of an 8-byte
identifier, against which the parser's lossy JavaScript composition
is compared. -/
def u64At (d : List Nat) (i : Nat) : Option Nat :=
  match u32At d i, u32At d (i + 4) with
  | some hi, some lo => some (hi * 4294967296 + lo)
  | _, _ => none

/-- Round a natural number to the nearest IEEE-754 binary64 value
(53-bit significand, ties to even).  Models the single rounding a
JavaScript arithmetic operation performs on an integer result; it is
the identity below 2^53. -/
def rnd53 (n : Nat) : Nat :=
  if n < 9007199254740992 then n
  else
    let shift := n.log2 - 52
    let q := n / 2 ^ shift
    let r := n % 2 ^ shift
    let h := 2 ^ (shift - 1)
    let q2 := if h < r ∨ (r = h ∧ q % 2 = 1) then q + 1 else q
    q2 * 2 ^ shift

/-- JavaScript evaluation of `hi * 0x100000000 + lo`: each operation
rounds its integer result to binary64. -/
def jsAddPow32 (hi lo : Nat) : Nat := rnd53 (rnd53 (hi * 4294967296) + lo)

/-- JavaScript rounding of an exact integer value to binary64
(sign-magnitude, ties to even). -/
def jsNum (i : Int) : Int :=
  if i < 0 then -(rnd53 i.natAbs : Int) else (rnd53 i.natAbs : Int)

/-- Signed reinterpretation of one byte (DataView.getInt8). -/
def toInt8 (b : Nat) : Int := if b < 128 then (b : Int) else (b : Int) - 256

/-- Signed reinterpretation of a 16-bit value (DataView.getInt16). -/
def toInt16 (v : Nat) : Int := if v < 32768 then (v : Int) else (v : Int) - 65536

/-- Signed reinterpretation of a 32-bit value (DataView.getInt32). -/
def toInt32 (v : Nat) : Int :=
  if v < 2147483648 then (v : Int) else (v : Int) - 4294967296

/-- Cursor-level read result: either a value together with the cursor
after the read, or a thrown error together with the cursor at the
moment of the throw (`this.position++` increments even when the read
throws, so those sites report `pos + 1`). -/
abbrev Rd := Except (JsError × Nat)

/-- Read one byte at the cursor with the `getUint8(this.position++)`
pattern. -/
def rdU8 (d : List Nat) (pos : Nat) : Rd (Nat × Nat) :=
  match byteAt d pos with
  | some b => .ok (b, pos + 1)
  | none => .error (.rangeError, pos + 1)

/-- Read a big-endian 16-bit value at the cursor
(`getUint16(this.position)` then `this.position += 2`). -/
def rdU16 (d : List Nat) (pos : Nat) : Rd (Nat × Nat) :=
  match u16At d pos with
  | some v => .ok (v, pos + 2)
  | none => .error (.rangeError, pos)

/-- Read a big-endian 32-bit value at the cursor
(`getUint32(this.position)` then `this.position += 4`). -/
def rdU32 (d : List Nat) (pos : Nat) : Rd (Nat × Nat) :=
  match u32At d pos with
  | some v => .ok (v, pos + 4)
  | none => .error (.rangeError, pos)

/-- HprofParser.readId: a 4-byte identifier is read directly, an
8-byte identifier is composed from two 32-bit words with JavaScript
number arithmetic, and any other identifier size throws. -/
def rdId (d : List Nat) (idSize pos : Nat) : Rd (Nat × Nat) :=
  if idSize = 4 then
    match u32At d pos with
    | some v => .ok (v, pos + 4)
    | none => .error (.rangeError, pos)
  else if idSize = 8 then
    match u32At d pos, u32At d (pos + 4) with
    | some hi, some lo => .ok (jsAddPow32 hi lo, pos + 8)
    | _, _ => .error (.rangeError, pos)
  else .error (.unsupportedIdSize, pos)

/-- BASIC_TYPES: the fixed table from value-type tag to byte width
used by skipValue and parsePrimitiveArrayDump. -/
def basicTypes (t : Nat) : Option Nat :=
  if t = 2 then some 1
  else if t = 4 then some 1
  else if t = 5 then some 2
  else if t = 6 then some 4
  else if t = 7 then some 8
  else if t = 8 then some 1
  else if t = 9 then some 2
  else if t = 10 then some 4
  else if t = 11 then some 8
  else none

/-- Byte width used by HprofParser.skipValue for a value of type tag
`t`: `BASIC_TYPES[type] || this.identifierSize` (a table miss is
undefined, hence falsy, hence the identifier size). -/
def basicSize (t idSize : Nat) : Nat :=
  match basicTypes t with
  | some n => n
  | none => idSize

/-- HprofParser.skipValue: read the type tag byte at the cursor
(`this.position++`), then advance by that type's width.  The advance
itself performs no read, so it never throws. -/
def skipValueR (d : List Nat) (idSize pos : Nat) : Rd (Unit × Nat) :=
  match byteAt d pos with
  | some t => .ok ((), pos + 1 + basicSize t idSize)
  | none => .error (.rangeError, pos + 1)

/-- Values produced by HprofParser.readValue.  Floating-point reads
(tags 6 and 7) are represented injectively by the raw big-endian word
they decode, since no analysed property depends on the IEEE decode
rule itself; all integer-valued reads are exact except `long`, which
goes through JavaScript number arithmetic. -/
inductive JsVal where
  | num (i : Int)
  | bool (b : Bool)
  | f32bits (w : Nat)
  | f64bits (w : Nat)
deriving DecidableEq

/-- HprofParser.readValue: decode one typed value at the cursor.  The
type tag itself was already consumed by the caller. -/
def rdValue (d : List Nat) (idSize t pos : Nat) : Rd (JsVal × Nat) :=
  if t = 2 then
    match rdId d idSize pos with
    | .ok (v, p) => .ok (.num (v : Int), p)
    | .error e => .error e
  else if t = 4 then
    match byteAt d pos with
    | some b => .ok (.bool (b != 0), pos + 1)
    | none => .error (.rangeError, pos + 1)
  else if t = 5 then
    match u16At d pos with
    | some v => .ok (.num (v : Int), pos + 2)
    | none => .error (.rangeError, pos)
  else if t = 6 then
    match u32At d pos with
    | some w => .ok (.f32bits w, pos + 4)
    | none => .error (.rangeError, pos)
  else if t = 7 then
    match u64At d pos with
    | some w => .ok (.f64bits w, pos + 8)
    | none => .error (.rangeError, pos)
  else if t = 8 then
    match byteAt d pos with
    | some b => .ok (.num (toInt8 b), pos + 1)
    | none => .error (.rangeError, pos + 1)
  else if t = 9 then
    match u16At d pos with
    | some v => .ok (.num (toInt16 v), pos + 2)
    | none => .error (.rangeError, pos)
  else if t = 10 then
    match u32At d pos with
    | some v => .ok (.num (toInt32 v), pos + 4)
    | none => .error (.rangeError, pos)
  else if t = 11 then
    match u32At d pos, u32At d (pos + 4) with
    | some hi, some lo => .ok (.num (jsNum (toInt32 hi * 4294967296 + lo)), pos + 8)
    | _, _ => .error (.rangeError, pos)
  else .error (.unknownType t, pos)

/-- Read `n` consecutive identifiers (the element loop of
parseObjectArrayDump). -/
def rdIds (d : List Nat) (idSize n pos : Nat) : Rd (List Nat × Nat) :=
  match n with
  | 0 => .ok ([], pos)
  | m + 1 =>
    match rdId d idSize pos with
    | .error e => .error e
    | .ok (v, p1) =>
      match rdIds d idSize m p1 with
      | .error e => .error e
      | .ok (vs, p2) => .ok (v :: vs, p2)

/-- Read `n` consecutive bytes at the cursor with the
`getUint8(this.position++)` pattern. -/
def rdBytesN (d : List Nat) (n pos : Nat) : Rd (List Nat × Nat) :=
  match n with
  | 0 => .ok ([], pos)
  | m + 1 =>
    match byteAt d pos with
    | none => .error (.rangeError, pos + 1)
    | some b =>
      match rdBytesN d m (pos + 1) with
      | .error e => .error e
      | .ok (bs, p) => .ok (b :: bs, p)

/-- Read every byte from the cursor up to (but excluding) `endPos`
(the byte loop of parseString): the loop `while position < endPos`
with a unit increment runs exactly `endPos - position` times. -/
def rdBytesUntil (d : List Nat) (pos endPos : Nat) : Rd (List Nat × Nat) :=
  rdBytesN d (endPos - pos) pos

/-- The format-name loop of parseHeader, bounded by a fuel argument.
The zero-fuel arm can only be reached with the cursor past the end of
the buffer (each step consumes one existing byte), where the read
throws anyway. -/
def rdCStringN (d : List Nat) (fuel pos : Nat) : Rd (List Nat × Nat) :=
  match fuel with
  | 0 => .error (.rangeError, pos + 1)
  | f + 1 =>
    match byteAt d pos with
    | none => .error (.rangeError, pos + 1)
    | some b =>
      if b = 0 then .ok ([], pos + 1)
      else
        match rdCStringN d f (pos + 1) with
        | .error e => .error e
        | .ok (bs, p) => .ok (b :: bs, p)

/-- Read a null-terminated byte string (the format-name loop of
parseHeader).  Running past the end of the buffer throws. -/
def rdCString (d : List Nat) (pos : Nat) : Rd (List Nat × Nat) :=
  rdCStringN d (d.length + 1 - pos) pos

/-- Association table keyed by number, in insertion order: the model
for a JavaScript Map (and for the numerically-keyed staticFields
object).  `set` on an existing key replaces the value in place. -/
abbrev JMap (α : Type) := List (Nat × α)

/-- Map lookup (Map.get / property read). -/
def alGet {α : Type} (m : JMap α) (k : Nat) : Option α :=
  match m with
  | [] => none
  | (k', v') :: rest => if k' = k then some v' else alGet rest k

/-- Map update (Map.set / property write): replace the value at an
existing key, keeping its position, or append a new entry. -/
def alSet {α : Type} (m : JMap α) (k : Nat) (v : α) : JMap α :=
  match m with
  | [] => [(k, v)]
  | (k', v') :: rest => if k' = k then (k, v) :: rest else (k', v') :: alSet rest k v

/-- JavaScript strings manipulated by the parser, represented by how
the code built them: either the TextDecoder UTF-8 decode of a byte
sequence (parseString), or the template literal forming the
placeholder name Class#<id>.  The representation is injective on what
each site can observe; no analysed property depends on the UTF-8
decode rule itself.  Note a decoded string is empty (falsy under the
`||` fallback) exactly when its byte list is empty. -/
inductive JsString where
  | utf8 (bytes : List Nat)
  | classPlaceholder (id : Nat)
deriving DecidableEq

/-- Name resolution used by parseLoadClass:
`this.strings.get(classNameId) || Class#<id>`.  A missing entry is
undefined (falsy) and the empty string is also falsy, so both fall
back to the placeholder. -/
def resolveName (strings : JMap (List Nat)) (nameId : Nat) : JsString :=
  match alGet strings nameId with
  | some bs => if bs = [] then .classPlaceholder nameId else .utf8 bs
  | none => .classPlaceholder nameId

/-- A static-field entry `{ type, value }` stored under its name id. -/
structure StaticField where
  type : Nat
  value : JsVal
deriving DecidableEq

/-- An instance-field descriptor `{ nameId, type }` (no value). -/
structure FieldDesc where
  nameId : Nat
  type : Nat
deriving DecidableEq

/-- An entry of `this.classes`.  The two creation sites build objects
with different key sets (parseLoadClass builds the full announcement
shape, parseClassDump builds a bare placeholder), and Object.assign
later adds the definition keys; absent JavaScript properties are
`none`. -/
structure ClassRecord where
  classObjectId : Nat
  name : JsString
  instances : List Nat
  serialNum : Option Nat := none
  stackTraceSerial : Option Nat := none
  classNameId : Option Nat := none
  staticFields : Option (JMap StaticField) := none
  instanceFields : Option (List FieldDesc) := none
  superClassObjectId : Option Nat := none
  classLoaderObjectId : Option Nat := none
  instanceSize : Option Nat := none
deriving DecidableEq

/-- An entry of `this.instances`: the three object shapes stored by
parseInstanceDump, parseObjectArrayDump and parsePrimitiveArrayDump
(the latter two carry `type: 'objectArray'` / `'primitiveArray'`,
encoded here by the constructor; a primitive array has no
classObjectId). -/
inductive InstanceRec where
  | obj (objectId classObjectId stackTraceSerial size : Nat) (data : List Nat)
  | objectArray (objectId classObjectId stackTraceSerial size : Nat) (elements : List Nat)
  | primitiveArray (objectId stackTraceSerial elementType size length : Nat)
deriving DecidableEq

/-- An entry of `this.roots`; thread-scoped and JNI-global roots carry
extra keys, absent otherwise. -/
structure Root where
  type : Nat
  objectId : Nat
  jniGlobalRefId : Option Nat := none
  threadSerial : Option Nat := none
  frameNum : Option Nat := none
deriving DecidableEq

/-- The mutable state of one HprofParser pass: the four model tables,
the header-established identifier size and timestamp, and the byte
cursor `this.position`. -/
structure St where
  strings : JMap (List Nat)
  classes : JMap ClassRecord
  instances : JMap InstanceRec
  roots : List Root
  identifierSize : Nat
  timestamp : Nat
  position : Nat
deriving DecidableEq

/-- Result of one stateful parsing step: JavaScript exceptions do not
roll back table mutations, so the error case also carries the state
at the moment of the throw. -/
inductive PRes (α : Type) where
  | ok (a : α) (s : St)
  | err (e : JsError) (s : St)
deriving DecidableEq

/-- The four fields read by parseLoadClass, in read order. -/
structure LoadClassData where
  serialNum : Nat
  classObjectId : Nat
  stackTraceSerial : Nat
  classNameId : Nat
deriving DecidableEq

/-- Reads of parseLoadClass: 4-byte serial number, class id,
4-byte stack-trace serial, name-string id. -/
def loadClassRead (d : List Nat) (idSize pos : Nat) : Rd (LoadClassData × Nat) := do
  let (serialNum, p1) ← rdU32 d pos
  let (classObjectId, p2) ← rdId d idSize p1
  let (stackTraceSerial, p3) ← rdU32 d p2
  let (classNameId, p4) ← rdId d idSize p3
  .ok (⟨serialNum, classObjectId, stackTraceSerial, classNameId⟩, p4)

/-- The constant-pool skip loop of parseClassDump.  Each entry skips
2 bytes (index) plus 1 byte (type), then calls skipValue -- which
reads its own type byte at the next position, exactly as the source
does. -/
def cpSkip (d : List Nat) (idSize n pos : Nat) : Rd (Unit × Nat) :=
  match n with
  | 0 => .ok ((), pos)
  | m + 1 =>
    match skipValueR d idSize (pos + 3) with
    | .error e => .error e
    | .ok (_, p) => cpSkip d idSize m p

/-- The static-field loop of parseClassDump: each entry reads a name
id, a type tag byte (`this.position++`) and a typed value, and stores
`{ type, value }` under the name id with object-assignment
semantics. -/
def sfLoop (d : List Nat) (idSize n pos : Nat) (acc : JMap StaticField) :
    Rd (JMap StaticField × Nat) :=
  match n with
  | 0 => .ok (acc, pos)
  | m + 1 => do
    let (nameId, p1) ← rdId d idSize pos
    let (t, p2) ← rdU8 d p1
    let (v, p3) ← rdValue d idSize t p2
    sfLoop d idSize m p3 (alSet acc nameId ⟨t, v⟩)

/-- The instance-field-descriptor loop of parseClassDump: each entry
reads a name id and a type tag byte and appends `{ nameId, type }`. -/
def ifLoop (d : List Nat) (idSize n pos : Nat) (acc : List FieldDesc) :
    Rd (List FieldDesc × Nat) :=
  match n with
  | 0 => .ok (acc, pos)
  | m + 1 => do
    let (nameId, p1) ← rdId d idSize pos
    let (t, p2) ← rdU8 d p1
    ifLoop d idSize m p2 (acc ++ [⟨nameId, t⟩])

/-- The fields parseClassDump reads before merging them into the
class table (fields it reads and drops are not retained, exactly as
in the source). -/
structure ClassDumpData where
  classObjectId : Nat
  stackTraceSerial : Nat
  superClassObjectId : Nat
  classLoaderObjectId : Nat
  instanceSize : Nat
  staticFields : JMap StaticField
  instanceFields : List FieldDesc
deriving DecidableEq

/-- Reads of parseClassDump, in source order: class id, 4-byte
stack-trace serial, super-class id, class-loader id, signers id,
protection-domain id, two reserved ids, 4-byte instance size, the
constant-pool table, the static-field table, the
instance-field-descriptor table. -/
def classDumpRead (d : List Nat) (idSize pos : Nat) : Rd (ClassDumpData × Nat) := do
  let (classObjectId, p1) ← rdId d idSize pos
  let (stackTraceSerial, p2) ← rdU32 d p1
  let (superClassObjectId, p3) ← rdId d idSize p2
  let (classLoaderObjectId, p4) ← rdId d idSize p3
  let (_, p5) ← rdId d idSize p4
  let (_, p6) ← rdId d idSize p5
  let (_, p7) ← rdId d idSize p6
  let (_, p8) ← rdId d idSize p7
  let (instanceSize, p9) ← rdU32 d p8
  let (constantPoolSize, p10) ← rdU16 d p9
  let (_, p11) ← cpSkip d idSize constantPoolSize p10
  let (numStaticFields, p12) ← rdU16 d p11
  let (staticFields, p13) ← sfLoop d idSize numStaticFields p12 []
  let (numInstanceFields, p14) ← rdU16 d p13
  let (instanceFields, p15) ← ifLoop d idSize numInstanceFields p14 []
  .ok (⟨classObjectId, stackTraceSerial, superClassObjectId, classLoaderObjectId,
        instanceSize, staticFields, instanceFields⟩, p15)

/-- The fields parseInstanceDump reads: object id, 4-byte stack-trace
serial, owning class id, 4-byte byte count, then exactly that many
raw bytes (the Uint8Array view construction throws a RangeError when
the byte count overruns the buffer). -/
structure InstDumpData where
  objectId : Nat
  stackTraceSerial : Nat
  classObjectId : Nat
  numBytes : Nat
  data : List Nat
deriving DecidableEq

/-- Reads of parseInstanceDump. -/
def instanceDumpRead (d : List Nat) (idSize pos : Nat) : Rd (InstDumpData × Nat) := do
  let (objectId, p1) ← rdId d idSize pos
  let (stackTraceSerial, p2) ← rdU32 d p1
  let (classObjectId, p3) ← rdId d idSize p2
  let (numBytes, p4) ← rdU32 d p3
  if p4 + numBytes ≤ d.length then
    .ok (⟨objectId, stackTraceSerial, classObjectId, numBytes,
          (d.drop p4).take numBytes⟩, p4 + numBytes)
  else .error (.rangeError, p4)

/-- The fields parseObjectArrayDump reads: array id, 4-byte
stack-trace serial, 4-byte element count, element-class id, then one
identifier per element. -/
structure ObjArrayData where
  arrayObjectId : Nat
  stackTraceSerial : Nat
  numElements : Nat
  arrayClassObjectId : Nat
  elements : List Nat
deriving DecidableEq

/-- Reads of parseObjectArrayDump. -/
def objectArrayRead (d : List Nat) (idSize pos : Nat) : Rd (ObjArrayData × Nat) := do
  let (arrayObjectId, p1) ← rdId d idSize pos
  let (stackTraceSerial, p2) ← rdU32 d p1
  let (numElements, p3) ← rdU32 d p2
  let (arrayClassObjectId, p4) ← rdId d idSize p3
  let (elements, p5) ← rdIds d idSize numElements p4
  .ok (⟨arrayObjectId, stackTraceSerial, numElements, arrayClassObjectId, elements⟩, p5)

/-- HprofParser.parseLoadClass: read the announcement and install a
completely fresh class record under the class id (Map.set), resolving
the name through the string table with the placeholder fallback. -/
def parseLoadClass (d : List Nat) (s : St) : PRes Unit :=
  match loadClassRead d s.identifierSize s.position with
  | .error (e, p) => .err e { s with position := p }
  | .ok (lc, p) =>
    .ok ()
      { s with
        position := p,
        classes := alSet s.classes lc.classObjectId
          { classObjectId := lc.classObjectId,
            name := resolveName s.strings lc.classNameId,
            instances := [],
            serialNum := some lc.serialNum,
            stackTraceSerial := some lc.stackTraceSerial,
            classNameId := some lc.classNameId,
            staticFields := some [],
            instanceFields := some [] } }

/-- The Object.assign step of parseClassDump: overlay the definition
fields onto the base record, leaving every other key (in particular
`name`) untouched. -/
def mergedClass (base : ClassRecord) (data : ClassDumpData) : ClassRecord :=
  { base with
    stackTraceSerial := some data.stackTraceSerial,
    superClassObjectId := some data.superClassObjectId,
    classLoaderObjectId := some data.classLoaderObjectId,
    instanceSize := some data.instanceSize,
    staticFields := some data.staticFields,
    instanceFields := some data.instanceFields }

/-- HprofParser.parseClassDump: read the definition, then get the
existing class record or create a bare placeholder
(`Class#<id>` name, empty instance list), and Object.assign the
definition fields onto it. -/
def parseClassDump (d : List Nat) (s : St) : PRes Unit :=
  match classDumpRead d s.identifierSize s.position with
  | .error (e, p) => .err e { s with position := p }
  | .ok (data, p) =>
    let base :=
      match alGet s.classes data.classObjectId with
      | some ci => ci
      | none =>
        { classObjectId := data.classObjectId,
          name := JsString.classPlaceholder data.classObjectId,
          instances := [] }
    .ok ()
      { s with
        position := p,
        classes := alSet s.classes data.classObjectId (mergedClass base data) }

/-- HprofParser.parseInstanceDump: store the instance under its
object id, then append the object id to the owning class's instance
list only if that class record exists. -/
def parseInstanceDump (d : List Nat) (s : St) : PRes Unit :=
  match instanceDumpRead d s.identifierSize s.position with
  | .error (e, p) => .err e { s with position := p }
  | .ok (idat, p) =>
    let inst := InstanceRec.obj idat.objectId idat.classObjectId
      idat.stackTraceSerial idat.numBytes idat.data
    let s1 :=
      { s with
        position := p,
        instances := alSet s.instances idat.objectId inst }
    match alGet s1.classes idat.classObjectId with
    | some ci =>
      .ok ()
        { s1 with
          classes := alSet s1.classes idat.classObjectId
            { ci with instances := ci.instances ++ [idat.objectId] } }
    | none => .ok () s1

/-- HprofParser.parseObjectArrayDump: store an object-array instance
whose size is the element count times the identifier size. -/
def parseObjectArrayDump (d : List Nat) (s : St) : PRes Unit :=
  match objectArrayRead d s.identifierSize s.position with
  | .error (e, p) => .err e { s with position := p }
  | .ok (oa, p) =>
    .ok ()
      { s with
        position := p,
        instances := alSet s.instances oa.arrayObjectId
          (.objectArray oa.arrayObjectId oa.arrayClassObjectId oa.stackTraceSerial
            (oa.numElements * s.identifierSize) oa.elements) }

/-- HprofParser.parsePrimitiveArrayDump: read the header, compute the
total byte size from the BASIC_TYPES width (default 1 for an
unrecognized element type), skip the data without reading it, and
store a primitive-array instance. -/
def parsePrimitiveArrayDump (d : List Nat) (s : St) : PRes Unit :=
  match (do
      let (arrayObjectId, p1) ← rdId d s.identifierSize s.position
      let (stackTraceSerial, p2) ← rdU32 d p1
      let (numElements, p3) ← rdU32 d p2
      let (elementType, p4) ← rdU8 d p3
      let elementSize :=
        match basicTypes elementType with
        | some n => n
        | none => 1
      let totalSize := numElements * elementSize
      .ok ((arrayObjectId, stackTraceSerial, numElements, elementType, totalSize),
        p4 + totalSize) :
      Rd ((Nat × Nat × Nat × Nat × Nat) × Nat)) with
  | .error (e, p) => .err e { s with position := p }
  | .ok ((arrayObjectId, stackTraceSerial, numElements, elementType, totalSize), p) =>
    .ok ()
      { s with
        position := p,
        instances := alSet s.instances arrayObjectId
          (.primitiveArray arrayObjectId stackTraceSerial elementType totalSize
            numElements) }

/-- HprofParser.parseRoot: plain GC roots (ROOT_UNKNOWN,
ROOT_STICKY_CLASS, ROOT_MONITOR_USED, ROOT_THREAD_OBJ) read one
identifier and push a root. -/
def parseRoot (d : List Nat) (subTag : Nat) (s : St) : PRes Unit :=
  match rdId d s.identifierSize s.position with
  | .error (e, p) => .err e { s with position := p }
  | .ok (objectId, p) =>
    .ok ()
      { s with
        position := p,
        roots := s.roots ++ [{ type := subTag, objectId := objectId }] }

/-- HprofParser.parseRootJniGlobal: read the object id and the JNI
global ref id and push a root carrying both. -/
def parseRootJniGlobal (d : List Nat) (s : St) : PRes Unit :=
  match (do
      let (objectId, p1) ← rdId d s.identifierSize s.position
      let (jniGlobalRefId, p2) ← rdId d s.identifierSize p1
      .ok ((objectId, jniGlobalRefId), p2) : Rd ((Nat × Nat) × Nat)) with
  | .error (e, p) => .err e { s with position := p }
  | .ok ((objectId, jniGlobalRefId), p) =>
    .ok ()
      { s with
        position := p,
        roots := s.roots ++
          [{ type := 1, objectId := objectId,
             jniGlobalRefId := some jniGlobalRefId }] }

/-- HprofParser.parseRootWithThread: read the object id, a 4-byte
thread serial and a 4-byte frame number and push a root carrying all
three. -/
def parseRootWithThread (d : List Nat) (subTag : Nat) (s : St) : PRes Unit :=
  match (do
      let (objectId, p1) ← rdId d s.identifierSize s.position
      let (threadSerial, p2) ← rdU32 d p1
      let (frameNum, p3) ← rdU32 d p2
      .ok ((objectId, threadSerial, frameNum), p3) : Rd ((Nat × Nat × Nat) × Nat)) with
  | .error (e, p) => .err e { s with position := p }
  | .ok ((objectId, threadSerial, frameNum), p) =>
    .ok ()
      { s with
        position := p,
        roots := s.roots ++
          [{ type := subTag, objectId := objectId,
             threadSerial := some threadSerial, frameNum := some frameNum }] }

/-- HprofParser.parseString: read the string id, then every remaining
byte of the record payload, and store the decoded bytes in the string
table. -/
def parseString (d : List Nat) (endPos : Nat) (s : St) : PRes Unit :=
  match rdId d s.identifierSize s.position with
  | .error (e, p) => .err e { s with position := p }
  | .ok (id, p1) =>
    match rdBytesUntil d p1 endPos with
    | .error (e, p) => .err e { s with position := p }
    | .ok (bs, p2) =>
      .ok ()
        { s with
          position := p2,
          strings := alSet s.strings id bs }

/-- The switch of HprofParser.parseHeapDump on the sub-record tag.
The SUB_TAGS case labels, in source order: ROOT_UNKNOWN 0xff,
ROOT_STICKY_CLASS 0x05, ROOT_MONITOR_USED 0x07, ROOT_THREAD_OBJ 0x08,
ROOT_JNI_GLOBAL 0x01, ROOT_JNI_LOCAL 0x02, ROOT_JAVA_FRAME 0x03,
ROOT_NATIVE_STACK 0x04, ROOT_THREAD_BLOCK 0x06, CLASS_DUMP 0x20,
INSTANCE_DUMP 0x21, OBJECT_ARRAY_DUMP 0x22, PRIMITIVE_ARRAY_DUMP
0x23; the default arm throws the unknown-sub-tag error. -/
def subDispatch (d : List Nat) (subTag : Nat) (s : St) : PRes Unit :=
  if subTag = 255 ∨ subTag = 5 ∨ subTag = 7 ∨ subTag = 8 then parseRoot d subTag s
  else if subTag = 1 then parseRootJniGlobal d s
  else if subTag = 2 ∨ subTag = 3 ∨ subTag = 4 ∨ subTag = 6 then
    parseRootWithThread d subTag s
  else if subTag = 32 then parseClassDump d s
  else if subTag = 33 then parseInstanceDump d s
  else if subTag = 34 then parseObjectArrayDump d s
  else if subTag = 35 then parsePrimitiveArrayDump d s
  else .err (.unknownSubTag subTag) s

/-- The sub-record loop of HprofParser.parseHeapDump: while the
cursor is before the record's end offset, read a sub-tag byte
(outside the try, so a range error there propagates) and dispatch it
inside a try whose catch breaks out of the loop.  The loop is
expressed with a fuel argument; parseHeapDump supplies
`endPos - position`, which bounds the iteration count because every
iteration consumes at least the sub-tag byte and no handler ever
moves the cursor backwards. -/
def heapDumpLoop (d : List Nat) (endPos fuel : Nat) (s : St) : PRes Unit :=
  match fuel with
  | 0 => .ok () s
  | f + 1 =>
    if s.position < endPos then
      match byteAt d s.position with
      | none => .err .rangeError { s with position := s.position + 1 }
      | some subTag =>
        match subDispatch d subTag { s with position := s.position + 1 } with
        | .ok _ s2 => heapDumpLoop d endPos f s2
        | .err _ s2 => .ok () s2
    else .ok () s

/-- HprofParser.parseHeapDump (HEAP_DUMP and HEAP_DUMP_SEGMENT are
handled identically). -/
def parseHeapDump (d : List Nat) (endPos : Nat) (s : St) : PRes Unit :=
  heapDumpLoop d endPos (endPos - s.position) s

/-- The tag switch of HprofParser.parseRecord: STRING 0x01,
LOAD_CLASS 0x02, HEAP_DUMP 0x0c / HEAP_DUMP_SEGMENT 0x1c, and the
default arm that skips the unknown record by jumping to its end
offset. -/
def dispatchRecord (d : List Nat) (tag endPos : Nat) (s : St) : PRes Unit :=
  if tag = 1 then parseString d endPos s
  else if tag = 2 then parseLoadClass d s
  else if tag = 12 ∨ tag = 28 then parseHeapDump d endPos s
  else .ok () { s with position := endPos }

/-- HprofParser.parseRecord: read the 1-byte tag, skip the 4-byte
timestamp delta without reading, read the 4-byte record length,
compute the end offset, dispatch inside a try whose catch logs and
jumps to the end offset, then unconditionally set the cursor to the
end offset.  (In the source the cursor passes through
`position + 1` and `position + 5`; the reads happen at `position`
and `position + 5` and the payload starts at `position + 9`.) -/
def parseRecord (d : List Nat) (s : St) : PRes Unit :=
  if d.length ≤ s.position then .ok () s
  else
    match byteAt d s.position with
    | none => .err .rangeError { s with position := s.position + 1 }
    | some tag =>
      match u32At d (s.position + 5) with
      | none => .err .rangeError { s with position := s.position + 5 }
      | some length =>
        let endPos := s.position + 9 + length
        match dispatchRecord d tag endPos { s with position := s.position + 9 } with
        | .ok _ s1 => .ok () { s1 with position := endPos }
        | .err _ s1 => .ok () { s1 with position := endPos }

/-- The record loop of HprofParser.parse: while the cursor is before
the end of the buffer, parse one record.  Fuel `d.length` bounds the
iteration count because every successful parseRecord advances the
cursor by at least the 9-byte record header. -/
def recordsLoop (d : List Nat) (fuel : Nat) (s : St) : PRes Unit :=
  match fuel with
  | 0 => .ok () s
  | f + 1 =>
    if s.position < d.length then
      match parseRecord d s with
      | .ok _ s1 => recordsLoop d f s1
      | .err e s1 => .err e s1
    else .ok () s

/-- The code units of the magic prefix the format name must start
with: `JAVA PROFILE 1.0` (String.fromCharCode maps each byte to the
identical code unit, and startsWith compares code units, so the check
is a byte-prefix test). -/
def magicBytes : List Nat := [74, 65, 86, 65, 32, 80, 82, 79, 70, 73, 76, 69, 32, 49, 46, 48]

/-- HprofParser.parseHeader: read the null-terminated format name and
require the magic prefix, read the 4-byte identifier size (with no
validation of its value), then read the 8-byte timestamp as two
32-bit words combined with JavaScript arithmetic. -/
def parseHeader (d : List Nat) (s : St) : PRes Unit :=
  match rdCString d s.position with
  | .error (e, p) => .err e { s with position := p }
  | .ok (formatBytes, p1) =>
    if magicBytes.isPrefixOf formatBytes then
      match u32At d p1 with
      | none => .err .rangeError { s with position := p1 }
      | some idSize =>
        match u32At d (p1 + 4), u32At d (p1 + 8) with
        | some hi, some lo =>
          .ok ()
            { s with
              position := p1 + 12,
              identifierSize := idSize,
              timestamp := jsAddPow32 hi lo }
        | _, _ => .err .rangeError { s with position := p1 + 4, identifierSize := idSize }
    else .err .unsupportedFormat { s with position := p1 }

/-- The model HprofParser.parse returns on success. -/
structure HeapModel where
  strings : JMap (List Nat)
  classes : JMap ClassRecord
  instances : JMap InstanceRec
  roots : List Root
  identifierSize : Nat
deriving DecidableEq

/-- The empty state a fresh HprofParser starts from. -/
def initSt : St :=
  { strings := [], classes := [], instances := [], roots := [],
    identifierSize := 0, timestamp := 0, position := 0 }

/-- HprofParser.parse: parse the header, then records until the
buffer is exhausted, and return the model; any error escaping those
stages is rethrown to the caller (the source re-wraps its message,
which carries no further information). -/
def hprofParse (d : List Nat) : Except JsError HeapModel :=
  match parseHeader d initSt with
  | .err e _ => .error e
  | .ok _ s1 =>
    match recordsLoop d d.length s1 with
    | .err e _ => .error e
    | .ok _ s2 =>
      .ok { strings := s2.strings, classes := s2.classes, instances := s2.instances,
            roots := s2.roots, identifierSize := s2.identifierSize }

/-- Modelled from the spec: the histogram analyzer
(src/services/analyzers/histogramAnalyzer.js, imported by App.jsx but
absent from the sources) reports the class of a stored instance; per
the spec, an instance whose owning class id has no class record is
reported via the placeholder name Class#<id>. -/
def reportedClassName (classes : JMap ClassRecord) (classObjectId : Nat) : JsString :=
  match alGet classes classObjectId with
  | some ci => ci.name
  | none => .classPlaceholder classObjectId


/-! Helper lemmas about the readers and tables. -/

lemma getElem?_some_lt {d : List Nat} {i b : Nat} (h : d[i]? = some b) : i < d.length := by
  by_contra hge
  rw [List.getElem?_eq_none (by omega)] at h
  exact Option.noConfusion h

lemma u32At_le {d : List Nat} {i v : Nat} (h : u32At d i = some v) : i + 4 ≤ d.length := by
  unfold u32At at h
  split at h
  · rename_i b0 b1 b2 b3 h0 h1 h2 h3
    have := getElem?_some_lt h3
    omega
  · exact Option.noConfusion h

lemma alGet_alSet_self {α : Type} (m : JMap α) (k : Nat) (v : α) :
    alGet (alSet m k v) k = some v := by
  induction m with
  | nil => simp [alSet, alGet]
  | cons kv rest ih =>
    obtain ⟨k', v'⟩ := kv
    by_cases hk : k' = k
    · simp [alSet, hk, alGet]
    · simp [alSet, hk, alGet, ih]

lemma exBind_ok {ε α β : Type} {x : Except ε α} {f : α → Except ε β} {b : β}
    (h : x >>= f = .ok b) : ∃ a, x = .ok a ∧ f a = .ok b := by
  cases x with
  | ok a => exact ⟨a, rfl, h⟩
  | error e => simp [Bind.bind, Except.bind] at h

lemma rdU8_ok {d : List Nat} {pos v p : Nat} (h : rdU8 d pos = .ok (v, p)) :
    byteAt d pos = some v ∧ p = pos + 1 := by
  unfold rdU8 at h
  split at h
  · rename_i b hb
    obtain ⟨rfl, rfl⟩ : b = v ∧ pos + 1 = p := by
      have := h
      simp at this
      exact this
    exact ⟨hb, rfl⟩
  · exact Except.noConfusion h

lemma rdU16_ok {d : List Nat} {pos v p : Nat} (h : rdU16 d pos = .ok (v, p)) :
    u16At d pos = some v ∧ p = pos + 2 := by
  unfold rdU16 at h
  split at h
  · rename_i w hw
    simp at h
    exact ⟨h.1 ▸ hw, h.2.symm⟩
  · exact Except.noConfusion h

lemma rdU32_ok {d : List Nat} {pos v p : Nat} (h : rdU32 d pos = .ok (v, p)) :
    u32At d pos = some v ∧ p = pos + 4 := by
  unfold rdU32 at h
  split at h
  · rename_i w hw
    simp at h
    exact ⟨h.1 ▸ hw, h.2.symm⟩
  · exact Except.noConfusion h

lemma rdId_ok {d : List Nat} {idSize pos v p : Nat} (h : rdId d idSize pos = .ok (v, p)) :
    (idSize = 4 ∨ idSize = 8) ∧ p = pos + idSize := by
  unfold rdId at h
  split at h
  · rename_i h4
    split at h
    · rename_i w hw
      simp at h
      exact ⟨Or.inl h4, by omega⟩
    · exact Except.noConfusion h
  · split at h
    · rename_i h4 h8
      split at h
      · rename_i hi lo hhi hlo
        simp at h
        exact ⟨Or.inr h8, by omega⟩
      · exact Except.noConfusion h
    · exact Except.noConfusion h

lemma rdIds_ok {d : List Nat} {idSize : Nat} :
    ∀ {n pos p : Nat} {vs : List Nat}, rdIds d idSize n pos = .ok (vs, p) →
      vs.length = n ∧ p = pos + n * idSize := by
  intro n
  induction n with
  | zero =>
    intro pos p vs h
    unfold rdIds at h
    simp at h
    obtain ⟨rfl, rfl⟩ := h
    simp
  | succ m ih =>
    intro pos p vs h
    unfold rdIds at h
    split at h
    · exact Except.noConfusion h
    · rename_i v1 p1 h1
      split at h
      · exact Except.noConfusion h
      · rename_i vs1 p2 h2
        simp at h
        obtain ⟨rfl, rfl⟩ := h
        obtain ⟨hlen, hp⟩ := ih h2
        obtain ⟨-, hp1⟩ := rdId_ok h1
        subst hp1
        constructor
        · simp [hlen]
        · rw [hp]
          ring

lemma parseRecord_ok_end {d : List Nat} {s : St} {L : Nat}
    (hL : u32At d (s.position + 5) = some L) :
    ∃ s1 : St, parseRecord d s = .ok () s1 ∧ s1.position = s.position + 9 + L := by
  have hle : s.position + 5 + 4 ≤ d.length := u32At_le hL
  have hlt : s.position < d.length := by omega
  obtain ⟨tag, htag⟩ : ∃ tag, byteAt d s.position = some tag :=
    ⟨_, by unfold byteAt; exact List.getElem?_eq_getElem hlt⟩
  unfold parseRecord
  rw [if_neg (by omega), htag, hL]
  dsimp only
  cases hdisp : dispatchRecord d tag (s.position + 9 + L)
      { s with position := s.position + 9 } with
  | ok a s1 => exact ⟨_, rfl, rfl⟩
  | err e s1 => exact ⟨_, rfl, rfl⟩

/-! Concrete buffers used by counterexamples and witnesses. -/

/-- A minimal buffer: valid magic, identifier width 5, zero timestamp,
no records. -/
def c2buf : List Nat :=
  [74, 65, 86, 65, 32, 80, 82, 79, 70, 73, 76, 69, 32, 49, 46, 48, 0,
   0, 0, 0, 5, 0, 0, 0, 0, 0, 0, 0, 0]

/-- The width-5 buffer followed by one STRING record of declared
length 2; its handler's identifier read throws, which is caught at
record granularity. -/
def c2buf2 : List Nat := c2buf ++ [1, 0, 0, 0, 0, 0, 0, 0, 2, 65, 66]

/-- One unknown top-level record (tag 7, length 1) in a 10-byte
buffer. -/
def c1buf : List Nat := [7, 0, 0, 0, 0, 0, 0, 0, 1, 255]

/-- An 8-byte identifier whose exact value is 2^53 + 1. -/
def c9buf : List Nat := [0, 32, 0, 0, 0, 0, 0, 1]

/-- C1: for every buffer and every top-level record whose 9-byte
header (1-byte tag at the cursor, 4-byte timestamp delta, 4-byte
declared payload length L) is readable, the record dispatcher returns
without error and leaves the cursor at exactly start + 9 + L,
regardless of the record's tag and regardless of what the dispatched
handler consumed or whether it threw. -/
theorem C1_record_framing (d : List Nat) (s : St) (L : Nat)
    (hL : u32At d (s.position + 5) = some L) :
    ∃ s1 : St, parseRecord d s = .ok () s1 ∧ s1.position = s.position + 9 + L :=
  parseRecord_ok_end hL

/-- Witness for C1 at a concrete buffer: one unknown-tag record with
declared length 1. -/
theorem C1_record_framing_w :
    ∃ s1 : St, parseRecord c1buf initSt = .ok () s1 ∧
      s1.position = initSt.position + 9 + 1 :=
  C1_record_framing c1buf initSt 1 (by rfl)

/-- C2 counterexample: a buffer whose header carries identifier width
5 (neither 4 nor 8) does not make the parse abort; the call returns a
model, so the fatal failure is not the sole outcome. -/
theorem C2_width5_returns_model :
    u32At c2buf 17 = some 5 ∧ (5 : Nat) ≠ 4 ∧ (5 : Nat) ≠ 8 ∧
    hprofParse c2buf =
      .ok { strings := [], classes := [], instances := [], roots := [],
            identifierSize := 5 } :=
  ⟨by rfl, by decide, by decide, by rfl⟩

/-- C2 amended: the header reader does not validate the identifier
width, so the parse does not abort there; instead every later
identifier read throws the unsupported-identifier-size error, which
is caught at top-level-record granularity, and the call still returns
a model (with the affected records contributing nothing -- here a
STRING record is dropped and the string table stays empty). -/
theorem C2_width_error_caught_at_records (w : Nat) (h4 : w ≠ 4) (h8 : w ≠ 8)
    (d : List Nat) (pos : Nat) :
    rdId d w pos = .error (.unsupportedIdSize, pos) ∧
    hprofParse c2buf2 =
      .ok { strings := [], classes := [], instances := [], roots := [],
            identifierSize := 5 } := by
  constructor
  · unfold rdId
    rw [if_neg h4, if_neg h8]
  · rfl

/-- Witness for the amended C2 at width 5. -/
theorem C2_width_error_caught_at_records_w :
    rdId [] 5 0 = .error (.unsupportedIdSize, 0) ∧
    hprofParse c2buf2 =
      .ok { strings := [], classes := [], instances := [], roots := [],
            identifierSize := 5 } :=
  C2_width_error_caught_at_records 5 (by decide) (by decide) [] 0

lemma rnd53_pow53 : rnd53 9007199254740992 = 9007199254740992 := by
  have hlog : Nat.log2 9007199254740992 = 53 := by
    rw [Nat.log2_eq_log_two]
    exact Nat.log_eq_of_pow_le_of_lt_pow (by norm_num) (by norm_num)
  unfold rnd53
  rw [if_neg (by norm_num)]
  simp only [hlog]
  norm_num

lemma rnd53_pow53_succ : rnd53 9007199254740993 = 9007199254740992 := by
  have hlog : Nat.log2 9007199254740993 = 53 := by
    rw [Nat.log2_eq_log_two]
    exact Nat.log_eq_of_pow_le_of_lt_pow (by norm_num) (by norm_num)
  unfold rnd53
  rw [if_neg (by norm_num)]
  simp only [hlog]
  norm_num

/-- C9: decoding the 8-byte identifier 00 20 00 00 00 00 00 01 (exact
unsigned value 2^53 + 1) yields 2^53: the JavaScript composition
`high * 0x100000000 + low` rounds to binary64, so the decoded
identifier differs from the exact big-endian composition of the raw
bytes -- the claimed no-precision-loss property fails. -/
theorem C9_id64_precision_loss :
    u64At c9buf 0 = some 9007199254740993 ∧
    rdId c9buf 8 0 = .ok (9007199254740992, 8) ∧
    (9007199254740992 : Nat) ≠ 9007199254740993 := by
  refine ⟨by rfl, ?_, by decide⟩
  have h1 : u32At c9buf 0 = some 2097152 := by rfl
  have h2 : u32At c9buf 4 = some 1 := by rfl
  unfold rdId
  rw [if_neg (by decide), if_pos rfl, h1, h2]
  dsimp only
  unfold jsAddPow32
  rw [show (2097152 : Nat) * 4294967296 = 9007199254740992 by norm_num,
    rnd53_pow53,
    show (9007199254740992 : Nat) + 1 = 9007199254740993 by norm_num,
    rnd53_pow53_succ]

/-- The heap-snapshot payload of this buffer starts with the
unrecognized sub-tag 0x99 (153): byte 0 is the sub-tag probed
directly, and bytes 1..10 form a HEAP_DUMP record (tag 12, length 1)
whose payload is that same sub-tag. -/
def c3buf : List Nat := [153, 12, 0, 0, 0, 0, 0, 0, 0, 1, 153]

/-- C3: when the heap sub-record loop meets an unrecognized sub-tag,
it stops at once with only the sub-tag byte consumed, no model
mutation and no propagated error (the remainder of the payload is
abandoned); and the outer record dispatcher still returns without
error from a heap-snapshot record (tag 0x0c or 0x1c) with the cursor
set to that record's end offset, so the scan resumes at the next
top-level record. -/
theorem C3_unknown_subtag_abandons_payload (d : List Nat) (endPos fuel : Nat)
    (s s2 : St) (t L : Nat)
    (hpos : s.position < endPos)
    (ht : byteAt d s.position = some t)
    (hunk : t ∉ ([255, 1, 2, 3, 4, 5, 6, 7, 8, 32, 33, 34, 35] : List Nat))
    (_hheap : byteAt d s2.position = some 12 ∨ byteAt d s2.position = some 28)
    (hL : u32At d (s2.position + 5) = some L) :
    heapDumpLoop d endPos (fuel + 1) s = .ok () { s with position := s.position + 1 } ∧
    ∃ s3 : St, parseRecord d s2 = .ok () s3 ∧ s3.position = s2.position + 9 + L := by
  constructor
  · have h' := hunk
    simp only [List.mem_cons, List.not_mem_nil, or_false, not_or] at h'
    obtain ⟨n255, n1, n2, n3, n4, n5, n6, n7, n8, n32, n33, n34, n35⟩ := h'
    have hd : subDispatch d t { s with position := s.position + 1 } =
        .err (.unknownSubTag t) { s with position := s.position + 1 } := by
      simp [subDispatch, n255, n1, n2, n3, n4, n5, n6, n7, n8, n32, n33, n34, n35]
    unfold heapDumpLoop
    rw [if_pos hpos, ht]
    dsimp only
    rw [hd]
  · exact parseRecord_ok_end hL

/-- Witness for C3: the loop at position 0 of c3buf stops on sub-tag
0x99, and the HEAP_DUMP record starting at position 1 refames the
cursor to its end offset 11. -/
theorem C3_unknown_subtag_abandons_payload_w :
    heapDumpLoop c3buf 11 1 initSt = .ok () { initSt with position := initSt.position + 1 } ∧
    ∃ s3 : St, parseRecord c3buf { initSt with position := 1 } = .ok () s3 ∧
      s3.position = ({ initSt with position := 1 } : St).position + 9 + 1 :=
  C3_unknown_subtag_abandons_payload c3buf 11 0 initSt { initSt with position := 1 }
    153 1 (by decide) (by rfl) (by decide) (Or.inl (by rfl)) (by rfl)

/-- An all-zero value buffer. -/
def z8 : List Nat := [0, 0, 0, 0, 0, 0, 0, 0]

/-- C5: the widths used when skipping a typed value (skipValue, via
the BASIC_TYPES table) and when decoding one (readValue) agree on the
eight primitive scalar tags but differ on the object-reference tag 2:
BASIC_TYPES maps tag 2 to 1 byte while readValue consumes a full
identifier (4 or 8 bytes).  Each rdValue equation below starts at
cursor 0, so its final cursor is the number of value bytes consumed;
the skipValueR equation shows a constant-pool-style skip of an
object-typed value consuming 1 tag byte + 1 value byte. -/
theorem C5_object_skip_decode_width_mismatch :
    basicSize 2 8 = 1 ∧ rdValue z8 8 2 0 = .ok (.num 0, 8) ∧
    basicSize 2 4 = 1 ∧ rdValue z8 4 2 0 = .ok (.num 0, 4) ∧
    (1 : Nat) ≠ 8 ∧ (1 : Nat) ≠ 4 ∧
    skipValueR (2 :: z8) 8 0 = .ok ((), 2) ∧
    basicSize 4 8 = 1 ∧ rdValue z8 8 4 0 = .ok (.bool false, 1) ∧
    basicSize 5 8 = 2 ∧ rdValue z8 8 5 0 = .ok (.num 0, 2) ∧
    basicSize 6 8 = 4 ∧ rdValue z8 8 6 0 = .ok (.f32bits 0, 4) ∧
    basicSize 7 8 = 8 ∧ rdValue z8 8 7 0 = .ok (.f64bits 0, 8) ∧
    basicSize 8 8 = 1 ∧ rdValue z8 8 8 0 = .ok (.num 0, 1) ∧
    basicSize 9 8 = 2 ∧ rdValue z8 8 9 0 = .ok (.num 0, 2) ∧
    basicSize 10 8 = 4 ∧ rdValue z8 8 10 0 = .ok (.num 0, 4) ∧
    basicSize 11 8 = 8 ∧ rdValue z8 8 11 0 = .ok (.num 0, 8) := by
  refine ⟨by rfl, by rfl, by rfl, by rfl, by decide, by decide, by rfl, by rfl, by rfl,
    by rfl, by rfl, by rfl, by rfl, by rfl, by rfl, by rfl, by rfl, by rfl, by rfl,
    by rfl, by rfl, by rfl, by rfl⟩

/-- C6: a successful object-array read of N declared elements yields
exactly N element identifiers; the cursor moves by two identifiers
plus 8 header bytes plus N identifier widths (so each element read
consumed exactly the identifier width, which the read itself forces
to be 4 or 8); and the stored instance records size
N * identifierSize together with the elements. -/
theorem C6_object_array_elements (d : List Nat) (s : St) (oa : ObjArrayData) (p : Nat)
    (hread : objectArrayRead d s.identifierSize s.position = .ok (oa, p)) :
    (s.identifierSize = 4 ∨ s.identifierSize = 8) ∧
    oa.elements.length = oa.numElements ∧
    p = s.position + 2 * s.identifierSize + 8 + oa.numElements * s.identifierSize ∧
    ∃ s1 : St, parseObjectArrayDump d s = .ok () s1 ∧
      alGet s1.instances oa.arrayObjectId =
        some (.objectArray oa.arrayObjectId oa.arrayClassObjectId oa.stackTraceSerial
          (oa.numElements * s.identifierSize) oa.elements) := by
  have hread0 := hread
  unfold objectArrayRead at hread
  obtain ⟨⟨aid, p1⟩, h1, hread⟩ := exBind_ok hread
  obtain ⟨⟨sts, p2⟩, h2, hread⟩ := exBind_ok hread
  obtain ⟨⟨n, p3⟩, h3, hread⟩ := exBind_ok hread
  obtain ⟨⟨acid, p4⟩, h4, hread⟩ := exBind_ok hread
  obtain ⟨⟨els, p5⟩, h5, hread⟩ := exBind_ok hread
  simp only [Except.ok.injEq, Prod.mk.injEq] at hread
  obtain ⟨hoa, hp⟩ := hread
  subst hoa
  subst hp
  obtain ⟨hid, hp1⟩ := rdId_ok h1
  obtain ⟨-, hp2⟩ := rdU32_ok h2
  obtain ⟨-, hp3⟩ := rdU32_ok h3
  obtain ⟨-, hp4⟩ := rdId_ok h4
  obtain ⟨hlen, hp5⟩ := rdIds_ok h5
  refine ⟨hid, hlen, ?_, ?_⟩
  · subst hp5 hp4 hp3 hp2 hp1
    ring
  · unfold parseObjectArrayDump
    rw [hread0]
    exact ⟨_, rfl, alGet_alSet_self ..⟩

/-- A 4-byte-identifier state with empty tables. -/
def st4 : St := { initSt with identifierSize := 4 }

/-- An object-array sub-record body: array id 5, stack-trace serial
0, 2 declared elements, element-class id 6, elements 9 and 10. -/
def c6buf : List Nat :=
  [0, 0, 0, 5, 0, 0, 0, 0, 0, 0, 0, 2, 0, 0, 0, 6, 0, 0, 0, 9, 0, 0, 0, 10]

/-- Witness for C6 at the concrete two-element array. -/
theorem C6_object_array_elements_w :
    (st4.identifierSize = 4 ∨ st4.identifierSize = 8) ∧
    ([9, 10] : List Nat).length = 2 ∧
    24 = st4.position + 2 * st4.identifierSize + 8 + 2 * st4.identifierSize ∧
    ∃ s1 : St, parseObjectArrayDump c6buf st4 = .ok () s1 ∧
      alGet s1.instances 5 = some (.objectArray 5 6 0 (2 * st4.identifierSize) [9, 10]) :=
  C6_object_array_elements c6buf st4 ⟨5, 0, 2, 6, [9, 10]⟩ 24 (by rfl)

/-- An instance-data sub-record body: object id 5, stack-trace serial
0, owning class id 77, 2 raw bytes (8 and 9). -/
def c7buf : List Nat :=
  [0, 0, 0, 5, 0, 0, 0, 0, 0, 0, 0, 77, 0, 0, 0, 2, 8, 9]

/-- C7: decoding an instance-data sub-record whose owning class id
has no class record returns without error; the instance is stored in
the instance table, the class table is left untouched (so no class
instance list gains the id -- the instance is orphaned), and the
spec-modelled reporting of its class name falls back to the
placeholder Class#<id>. -/
theorem C7_orphan_instance_stored (d : List Nat) (s : St) (idat : InstDumpData) (p : Nat)
    (hread : instanceDumpRead d s.identifierSize s.position = .ok (idat, p))
    (habs : alGet s.classes idat.classObjectId = none) :
    ∃ s1 : St, parseInstanceDump d s = .ok () s1 ∧
      alGet s1.instances idat.objectId =
        some (.obj idat.objectId idat.classObjectId idat.stackTraceSerial
          idat.numBytes idat.data) ∧
      s1.classes = s.classes ∧
      reportedClassName s1.classes idat.classObjectId =
        .classPlaceholder idat.classObjectId := by
  unfold parseInstanceDump
  rw [hread]
  dsimp only
  rw [habs]
  refine ⟨_, rfl, alGet_alSet_self .., rfl, ?_⟩
  unfold reportedClassName
  rw [habs]

/-- Witness for C7 at the concrete orphan instance. -/
theorem C7_orphan_instance_stored_w :
    ∃ s1 : St, parseInstanceDump c7buf st4 = .ok () s1 ∧
      alGet s1.instances 5 = some (.obj 5 77 0 2 [8, 9]) ∧
      s1.classes = st4.classes ∧
      reportedClassName s1.classes 77 = .classPlaceholder 77 :=
  C7_orphan_instance_stored c7buf st4 ⟨5, 0, 77, 2, [8, 9]⟩ 18 (by rfl) (by rfl)

/-- C10: processing a class-load announcement unconditionally
installs a completely fresh class record under the class id --
resolved-or-placeholder name, empty instance list, empty static
fields, empty instance-field descriptors, and no super-class,
class-loader or instance-size keys -- regardless of any record
previously stored for that id, whose merged definition fields are
thereby discarded. -/
theorem C10_load_class_replaces_record (d : List Nat) (s : St) (lc : LoadClassData)
    (p : Nat)
    (hread : loadClassRead d s.identifierSize s.position = .ok (lc, p)) :
    ∃ s1 : St, parseLoadClass d s = .ok () s1 ∧
      alGet s1.classes lc.classObjectId = some
        { classObjectId := lc.classObjectId,
          name := resolveName s.strings lc.classNameId,
          instances := [],
          serialNum := some lc.serialNum,
          stackTraceSerial := some lc.stackTraceSerial,
          classNameId := some lc.classNameId,
          staticFields := some [],
          instanceFields := some [] } := by
  unfold parseLoadClass
  rw [hread]
  exact ⟨_, rfl, alGet_alSet_self ..⟩

/-- A class record rich in definition fields, as left by an earlier
class-definition sub-record for class id 3. -/
def c10prior : ClassRecord :=
  { classObjectId := 3, name := .utf8 [66, 97, 114], instances := [5],
    stackTraceSerial := some 0,
    staticFields := some [(9, ⟨4, .bool true⟩)],
    instanceFields := some [⟨10, 8⟩],
    superClassObjectId := some 7, classLoaderObjectId := some 8,
    instanceSize := some 12 }

/-- A state already holding the rich record for class 3 and string 7
= "Foo" (bytes 70 111 111). -/
def c10st : St :=
  { initSt with
    identifierSize := 4,
    classes := [(3, c10prior)],
    strings := [(7, [70, 111, 111])] }

/-- A class-load announcement body: serial 1, class id 3, stack-trace
serial 2, name-string id 7. -/
def c10buf : List Nat := [0, 0, 0, 1, 0, 0, 0, 3, 0, 0, 0, 2, 0, 0, 0, 7]

/-- Witness for C10: the rich record for class 3 is replaced by the
fresh announcement record. -/
theorem C10_load_class_replaces_record_w :
    ∃ s1 : St, parseLoadClass c10buf c10st = .ok () s1 ∧
      alGet s1.classes 3 = some
        { classObjectId := 3,
          name := resolveName c10st.strings 7,
          instances := [],
          serialNum := some 1,
          stackTraceSerial := some 2,
          classNameId := some 7,
          staticFields := some [],
          instanceFields := some [] } :=
  C10_load_class_replaces_record c10buf c10st ⟨1, 3, 2, 7⟩ 16 (by rfl)

/-- C4: when a class record for the class id already exists (as after
a prior class-load announcement whose name resolved through the
string table to the nonempty byte string bs), a successful
class-definition sub-record decode merges into that record: the
result keeps the resolved name bs and now carries the definition's
super-class id, class-loader id, instance size, static fields and
instance-field descriptors.  The first conjunct states the resolution
itself: a string-table hit on nonempty bytes resolves to exactly
those bytes. -/
theorem C4_classdump_merge_preserves_name (d : List Nat) (s : St)
    (data : ClassDumpData) (p : Nat) (ci : ClassRecord) (bs : List Nat)
    (st : JMap (List Nat)) (nid : Nat)
    (hread : classDumpRead d s.identifierSize s.position = .ok (data, p))
    (hprev : alGet s.classes data.classObjectId = some ci)
    (hname : ci.name = .utf8 bs)
    (hst : alGet st nid = some bs)
    (hne : bs ≠ []) :
    resolveName st nid = .utf8 bs ∧
    ∃ s1 : St, parseClassDump d s = .ok () s1 ∧
      alGet s1.classes data.classObjectId = some (mergedClass ci data) ∧
      (mergedClass ci data).name = .utf8 bs ∧
      (mergedClass ci data).superClassObjectId = some data.superClassObjectId ∧
      (mergedClass ci data).classLoaderObjectId = some data.classLoaderObjectId ∧
      (mergedClass ci data).instanceSize = some data.instanceSize ∧
      (mergedClass ci data).staticFields = some data.staticFields ∧
      (mergedClass ci data).instanceFields = some data.instanceFields := by
  constructor
  · unfold resolveName
    rw [hst]
    dsimp only
    rw [if_neg hne]
  · unfold parseClassDump
    rw [hread]
    dsimp only
    rw [hprev]
    exact ⟨_, rfl, alGet_alSet_self .., hname, rfl, rfl, rfl, rfl, rfl⟩

/-- A class-definition sub-record body for class id 1 (identifier
width 4): stack-trace serial 2, super-class id 3, class-loader id 4,
four zero auxiliary identifiers, instance size 16, empty constant
pool, one static field (name id 9, boolean true), one instance-field
descriptor (name id 10, byte). -/
def c4buf : List Nat :=
  [0, 0, 0, 1, 0, 0, 0, 2, 0, 0, 0, 3, 0, 0, 0, 4,
   0, 0, 0, 0, 0, 0, 0, 0, 0, 0, 0, 0, 0, 0, 0, 0,
   0, 0, 0, 16, 0, 0, 0, 1, 0, 0, 0, 9, 4, 1, 0, 1, 0, 0, 0, 10, 8]

/-- The class record a load announcement for class 1 with name "Foo"
(bytes 70 111 111) leaves behind. -/
def c4prior : ClassRecord :=
  { classObjectId := 1, name := .utf8 [70, 111, 111], instances := [],
    serialNum := some 11, stackTraceSerial := some 0, classNameId := some 7,
    staticFields := some [], instanceFields := some [] }

/-- A state holding the announcement record for class 1 and string 7
= "Foo". -/
def c4st : St :=
  { initSt with
    identifierSize := 4,
    classes := [(1, c4prior)],
    strings := [(7, [70, 111, 111])] }

/-- Witness for C4 at the concrete buffer: the merge keeps name "Foo"
and adds super-class 3, loader 4, size 16, the static field and the
field descriptor. -/
theorem C4_classdump_merge_preserves_name_w :
    resolveName c4st.strings 7 = .utf8 [70, 111, 111] ∧
    ∃ s1 : St, parseClassDump c4buf c4st = .ok () s1 ∧
      alGet s1.classes 1 =
        some (mergedClass c4prior ⟨1, 2, 3, 4, 16, [(9, ⟨4, .bool true⟩)], [⟨10, 8⟩]⟩) ∧
      (mergedClass c4prior ⟨1, 2, 3, 4, 16, [(9, ⟨4, .bool true⟩)], [⟨10, 8⟩]⟩).name =
        .utf8 [70, 111, 111] ∧
      (mergedClass c4prior ⟨1, 2, 3, 4, 16, [(9, ⟨4, .bool true⟩)], [⟨10, 8⟩]⟩).superClassObjectId =
        some 3 ∧
      (mergedClass c4prior ⟨1, 2, 3, 4, 16, [(9, ⟨4, .bool true⟩)], [⟨10, 8⟩]⟩).classLoaderObjectId =
        some 4 ∧
      (mergedClass c4prior ⟨1, 2, 3, 4, 16, [(9, ⟨4, .bool true⟩)], [⟨10, 8⟩]⟩).instanceSize =
        some 16 ∧
      (mergedClass c4prior ⟨1, 2, 3, 4, 16, [(9, ⟨4, .bool true⟩)], [⟨10, 8⟩]⟩).staticFields =
        some [(9, ⟨4, .bool true⟩)] ∧
      (mergedClass c4prior ⟨1, 2, 3, 4, 16, [(9, ⟨4, .bool true⟩)], [⟨10, 8⟩]⟩).instanceFields =
        some [⟨10, 8⟩] :=
  C4_classdump_merge_preserves_name c4buf c4st
    ⟨1, 2, 3, 4, 16, [(9, ⟨4, .bool true⟩)], [⟨10, 8⟩]⟩ 53 c4prior [70, 111, 111]
    c4st.strings 7 (by rfl) (by rfl) (by rfl) (by rfl) (by decide)

/-- A class-definition sub-record body (identifier width 4) whose
seventh 32-bit field (offset 24, the position the claim's
four-identifier prefix would give the instance size) holds 99, while
the instance-size field the code actually reads (offset 32, after six
identifiers) holds 41; empty constant pool and field tables. -/
def c8buf : List Nat :=
  [0, 0, 0, 1, 0, 0, 0, 2, 0, 0, 0, 3, 0, 0, 0, 4,
   0, 0, 0, 5, 0, 0, 0, 6, 0, 0, 0, 99, 0, 0, 0, 7,
   0, 0, 0, 41, 0, 0, 0, 0, 0, 0]

/-- C8 counterexample: decoding c8buf as a class definition yields
instance size 41 -- the 32-bit value after SIX identifiers -- and not
the value 99 found where the claimed prefix (exactly four identifiers
between the stack-trace serial and the instance size) would place the
instance-size field. -/
theorem C8_four_identifier_prefix_false :
    classDumpRead c8buf 4 0 = .ok (⟨1, 2, 3, 4, 41, [], []⟩, 42) ∧
    u32At c8buf (0 + 4 + 4 + 4 * 4) = some 99 ∧
    (41 : Nat) ≠ 99 :=
  ⟨by rfl, by rfl, by decide⟩

/-- C8 amended: in a successful class-definition decode the
super-class id is read immediately after the stack-trace serial and
the class-loader id after it, but the 4-byte instance size is read
only after six identifiers (super-class, class-loader, signers,
protection domain, two reserved), at offset
start + 7 * identifierSize + 4. -/
theorem C8_six_identifiers_before_size (d : List Nat) (idSize pos : Nat)
    (data : ClassDumpData) (p : Nat)
    (hread : classDumpRead d idSize pos = .ok (data, p)) :
    rdId d idSize (pos + idSize + 4) = .ok (data.superClassObjectId, pos + 2 * idSize + 4) ∧
    rdId d idSize (pos + 2 * idSize + 4) = .ok (data.classLoaderObjectId, pos + 3 * idSize + 4) ∧
    u32At d (pos + 7 * idSize + 4) = some data.instanceSize := by
  unfold classDumpRead at hread
  obtain ⟨⟨cid, p1⟩, h1, hread⟩ := exBind_ok hread
  obtain ⟨⟨sts, p2⟩, h2, hread⟩ := exBind_ok hread
  obtain ⟨⟨sup, p3⟩, h3, hread⟩ := exBind_ok hread
  obtain ⟨⟨ldr, p4⟩, h4, hread⟩ := exBind_ok hread
  obtain ⟨⟨x5, p5⟩, h5, hread⟩ := exBind_ok hread
  obtain ⟨⟨x6, p6⟩, h6, hread⟩ := exBind_ok hread
  obtain ⟨⟨x7, p7⟩, h7, hread⟩ := exBind_ok hread
  obtain ⟨⟨x8, p8⟩, h8, hread⟩ := exBind_ok hread
  obtain ⟨⟨isz, p9⟩, h9, hread⟩ := exBind_ok hread
  obtain ⟨⟨cpc, p10⟩, h10, hread⟩ := exBind_ok hread
  obtain ⟨⟨u11, p11⟩, h11, hread⟩ := exBind_ok hread
  obtain ⟨⟨nsf, p12⟩, h12, hread⟩ := exBind_ok hread
  obtain ⟨⟨sfs, p13⟩, h13, hread⟩ := exBind_ok hread
  obtain ⟨⟨nif, p14⟩, h14, hread⟩ := exBind_ok hread
  obtain ⟨⟨ifs, p15⟩, h15, hread⟩ := exBind_ok hread
  simp only [Except.ok.injEq, Prod.mk.injEq] at hread
  obtain ⟨hdata, hp⟩ := hread
  subst hdata
  obtain ⟨-, hp1⟩ := rdId_ok h1
  obtain ⟨-, hp2⟩ := rdU32_ok h2
  obtain ⟨-, hp3⟩ := rdId_ok h3
  obtain ⟨-, hp4⟩ := rdId_ok h4
  obtain ⟨-, hp5⟩ := rdId_ok h5
  obtain ⟨-, hp6⟩ := rdId_ok h6
  obtain ⟨-, hp7⟩ := rdId_ok h7
  obtain ⟨-, hp8⟩ := rdId_ok h8
  obtain ⟨hu9, -⟩ := rdU32_ok h9
  refine ⟨?_, ?_, ?_⟩
  · rw [show pos + idSize + 4 = p2 by omega, show pos + 2 * idSize + 4 = p3 by omega]
    exact h3
  · rw [show pos + 2 * idSize + 4 = p3 by omega, show pos + 3 * idSize + 4 = p4 by omega]
    exact h4
  · rw [show pos + 7 * idSize + 4 = p8 by omega]
    exact hu9

/-- Witness for the amended C8 at the concrete buffer. -/
theorem C8_six_identifiers_before_size_w :
    rdId c8buf 4 (0 + 4 + 4) = .ok (3, 0 + 2 * 4 + 4) ∧
    rdId c8buf 4 (0 + 2 * 4 + 4) = .ok (4, 0 + 3 * 4 + 4) ∧
    u32At c8buf (0 + 7 * 4 + 4) = some 41 :=
  C8_six_identifiers_before_size c8buf 4 0 ⟨1, 2, 3, 4, 41, [], []⟩ 42 (by rfl)
